import Mathlib

/-!
Shallow embedding of the three-stage dashboard pipeline of
`src/mcp_agent/dashboard_agent.py`: the Schema Planner (`node_schema`),
the Metric Executor (`node_execute_sql`), the Dashboard Renderer
(`node_render_html`) and the fixed sequential coordinator built by
`build_pipeline_graph`.

External collaborators (the dataset tool and the language-model service)
are modelled as an explicit environment value supplying, for one run, the
value each call site receives.  Python exceptions are modelled as an
explicit error type; each constructor names the raise site in the source.
-/

namespace McpCsv

/-- JSON values, the shape exchanged between the pipeline stages.
Objects are association lists in insertion order (Python dicts from
`json.loads` have distinct keys and preserve insertion order). -/
inductive Json where
  | null : Json
  | bool (b : Bool) : Json
  | num (n : Int) : Json
  | str (s : String) : Json
  | arr (elems : List Json) : Json
  | obj (fields : List (String × Json)) : Json

/-- Python exception values that the pipeline code can raise.  Constructors
marked with a message correspond to explicit `raise` sites in
`dashboard_agent.py`; the rest are builtin exceptions raised by the
primitive operations the code performs. -/
inductive PyErr where
  /-- `m[k]` on a dict without key `k`. -/
  | keyError (k : String)
  /-- `lst[-1]` on an empty list (line 286 / line 227 / line 311). -/
  | indexError
  /-- wrong operand type: `json.loads` of a non-string, subscripting a
  non-dict with a string key, iterating or testing membership on a
  non-container. -/
  | typeError
  /-- `.get` attribute access on a non-dict value (line 291). -/
  | attributeError
  /-- `next()` on an exhausted iterator with no default (line 278). -/
  | stopIteration
  /-- `json.JSONDecodeError` from `json.loads` on a non-JSON string. -/
  | jsonDecode
  /-- `RuntimeError("get_schema tool not found")` (line 192). -/
  | runtimeGetSchemaNotFound
  /-- `RuntimeError("LLM returned empty content for schema analysis.")`
  (line 244). -/
  | runtimeEmptyLLM
  /-- `ValueError(f"Failed to parse schema items: ...")` (line 218),
  wrapping the inner exception. -/
  | valueSchemaItemsParse (inner : PyErr)
  /-- `ValueError("Empty schema returned")` (line 222). -/
  | valueEmptySchema
  /-- `ValueError("Schema items missing required keys after normalization")`
  (line 224). -/
  | valueSchemaMissingKeys
  /-- `ValueError(f"Failed to parse analysis JSON: ...")` (line 251). -/
  | valueAnalysisJson
  /-- `ValueError(f"Analysis JSON missing required key: ...")` (line 256). -/
  | valueMissingKey (k : String)
  /-- `ValueError(f"Failed to parse AIMessage content as JSON: ...")`
  (line 290), wrapping the inner exception. -/
  | valueExecParse (inner : PyErr)
  deriving DecidableEq

/-- Spec taxonomy (§7): `SchemaInvalid` errors of the planner. -/
def isSchemaInvalid : PyErr → Bool
  | .valueEmptySchema => true
  | .valueSchemaMissingKeys => true
  | _ => false

/-- Spec taxonomy (§7): `ModelOutputInvalid` errors
(empty or non-parseable model content). -/
def isModelOutputInvalid : PyErr → Bool
  | .runtimeEmptyLLM => true
  | .valueAnalysisJson => true
  | _ => false

/-- Spec taxonomy (§7): `ModelOutputIncomplete` errors
(parsed model JSON lacks a required key). -/
def isModelOutputIncomplete : PyErr → Bool
  | .valueMissingKey _ => true
  | _ => false

/-- Spec taxonomy (§7): `MalformedPlan` errors
(hand-off message did not parse as JSON). -/
def isMalformedPlan : PyErr → Bool
  | .valueExecParse _ => true
  | _ => false

/-- A language-model response string, partitioned by whether `json.loads`
accepts it.  `json.loads ""` fails, so the empty response is `raw ""`;
a response that parses is never the empty string. -/
inductive LLMText where
  | raw (s : String)
  | parsed (j : Json)

/-- Python truthiness of the response content (`not analysis.content`):
only the empty string is falsy. -/
def LLMText.isEmptyContent : LLMText → Bool
  | .raw s => s == ""
  | .parsed _ => false

/-- The content slot of a pipeline message.  `raw` and `jsonText` are
strings (partitioned by `json.loads` as for `LLMText`); `pyList` is the
non-string Python list that `node_execute_sql` stores as content
(line 307). -/
inductive Content where
  | raw (s : String)
  | jsonText (j : Json)
  | pyList (j : Json)

/-- `json.loads(content)`: strings parse or raise `JSONDecodeError`; a
non-string content raises `TypeError`. -/
def loadsContent : Content → Except PyErr Json
  | .raw _ => .error .jsonDecode
  | .jsonText j => .ok j
  | .pyList _ => .error .typeError

/-- Storing a model response as message content, as-is. -/
def contentOfLLM : LLMText → Content
  | .raw s => .raw s
  | .parsed j => .jsonText j

/-- A chat message of the pipeline state (role is "human" or "ai"). -/
structure Message where
  role : String
  content : Content

/-- A tool binding; behaviour is supplied by the environment, only the
name is consulted by the pipeline code. -/
structure Tool where
  name : String
  deriving DecidableEq

/-- The `PipelineState` TypedDict of `dashboard_agent.py`. -/
structure PipelineState where
  messages : List Message
  csv_file_path : String
  tool : List Tool

/-- One item of the list returned by the `get_schema` tool: either a
string (which `json.loads` accepts or rejects) or a non-string value used
as-is (line 213-216). -/
inductive WItem where
  | strRaw (s : String)
  | strJson (j : Json)
  | value (j : Json)

/-- The external calls of one run: what the `get_schema` tool returned,
what the analysis model call returned, what the `execute_polars_sql` tool
returns for each (file, query) pair (`none` models a Python `None`
result), and what the render model call returned.  Calls in which the
external service itself raises are outside the modelled environment: such
an exception propagates from the call site like any other. -/
structure Env where
  wrapped : List WItem
  llmAnalysis : LLMText
  execQuery : String → Json → Option (List Json)
  llmRender : LLMText

/-- Lookup in a JSON object (Python dict key lookup). -/
def objFind (fields : List (String × Json)) (k : String) : Option Json :=
  (fields.find? (fun p => p.1 == k)).map (fun p => p.2)

/-- Python `d.get(k, dflt)`: only dicts have `.get`. -/
def pyGetD (j : Json) (k : String) (dflt : Json) : Except PyErr Json :=
  match j with
  | .obj fields => .ok ((objFind fields k).getD dflt)
  | _ => .error .attributeError

/-- Python `d.get(k)` (default `None`). -/
def pyGet (j : Json) (k : String) : Except PyErr (Option Json) :=
  match j with
  | .obj fields => .ok (objFind fields k)
  | _ => .error .attributeError

/-- Python `m[k]` with a string key: dict lookup, `KeyError` when absent,
`TypeError` on any non-dict. -/
def pySubscript (j : Json) (k : String) : Except PyErr Json :=
  match j with
  | .obj fields =>
    match objFind fields k with
    | some v => .ok v
    | none => .error (.keyError k)
  | _ => .error .typeError

/-- Python `k in j` for a string `k`: dict key membership, list element
equality, substring test on strings, `TypeError` otherwise. -/
def pyContains (j : Json) (k : String) : Except PyErr Bool :=
  match j with
  | .obj fields => .ok (fields.any (fun p => p.1 == k))
  | .arr xs => .ok (xs.any (fun x => match x with | .str s => s == k | _ => false))
  | .str s => .ok (decide ((s.splitOn k).length > 1))
  | _ => .error .typeError

/-- Python `for m in j`: lists yield elements, dicts yield their keys,
strings yield one-character strings, other values raise `TypeError`. -/
def pyIter : Json → Except PyErr (List Json)
  | .arr xs => .ok xs
  | .obj fields => .ok (fields.map (fun p => Json.str p.1))
  | .str s => .ok (s.toList.map (fun c => Json.str (String.mk [c])))
  | _ => .error .typeError

/-- Python `lst[-1]`: last element, `IndexError` on the empty list. -/
def pyLast (ms : List Message) : Except PyErr Message :=
  match ms.getLast? with
  | some m => .ok m
  | none => .error .indexError

/-- `next((t for t in tools if t.name == n), ...)`: first tool with the
given name. -/
def findTool (ts : List Tool) (n : String) : Option Tool :=
  ts.find? (fun t => t.name == n)

/-- Normalization of one `get_schema` item
(`json.loads(item) if isinstance(item, str) else item`, line 214). -/
def normalizeItem : WItem → Except PyErr Json
  | .strRaw _ => .error .jsonDecode
  | .strJson j => .ok j
  | .value j => .ok j

/-- The list comprehension of lines 213-218: normalize every item; the
first failure aborts the comprehension and is re-raised as
`ValueError("Failed to parse schema items: ...")`. -/
def normalizeWrapped : List WItem → Except PyErr (List Json)
  | [] => .ok []
  | w :: ws =>
    match normalizeItem w with
    | .error e => .error (.valueSchemaItemsParse e)
    | .ok j =>
      match normalizeWrapped ws with
      | .error e => .error e
      | .ok js => .ok (j :: js)

/-- The per-item sanity check of line 223:
`isinstance(x, dict) and "name" in x and "dtype" in x`. -/
def schemaItemOk : Json → Bool
  | .obj fields => (fields.any (fun p => p.1 == "name")) && (fields.any (fun p => p.1 == "dtype"))
  | _ => false

/-- `all(... for x in schema_list[:2])` (line 223). -/
def firstTwoOk (l : List Json) : Bool :=
  (l.take 2).all schemaItemOk

/-- Body of the Schema Planner stage: everything inside the `try` of
`node_schema` (lines 188-266), in source order: locate `get_schema`,
invoke it, normalize its items, run the two schema sanity checks, read
the user question from the last message, call the analysis model, reject
empty content, parse the response as JSON, check the two required keys,
and hand off the minimal spec (only `key_metrics` and
`dashboard_components`, serialized back to a JSON string). -/
def node_schemaBody (env : Env) (st : PipelineState) : Except PyErr (List Message) :=
  match findTool st.tool "get_schema" with
  | none => .error .runtimeGetSchemaNotFound
  | some _ =>
    match normalizeWrapped env.wrapped with
    | .error e => .error e
    | .ok schema_list =>
      if schema_list.isEmpty then .error .valueEmptySchema
      else if !(firstTwoOk schema_list) then .error .valueSchemaMissingKeys
      else
        match pyLast st.messages with
        | .error e => .error e
        | .ok _question =>
          match env.llmAnalysis with
          | .raw s =>
            if s == "" then .error .runtimeEmptyLLM
            else .error .valueAnalysisJson
          | .parsed spec =>
            match pyContains spec "key_metrics" with
            | .error e => .error e
            | .ok false => .error (.valueMissingKey "key_metrics")
            | .ok true =>
              match pyContains spec "dashboard_components" with
              | .error e => .error e
              | .ok false => .error (.valueMissingKey "dashboard_components")
              | .ok true =>
                match pyGetD spec "key_metrics" (Json.arr []) with
                | .error e => .error e
                | .ok km =>
                  match pyGet spec "dashboard_components" with
                  | .error e => .error e
                  | .ok dc =>
                    .ok [{ role := "ai",
                           content := Content.jsonText (Json.obj
                             [("key_metrics", km),
                              ("dashboard_components", dc.getD Json.null)]) }]

/-- What a stage hands back to the graph: a state update carrying new
messages, the planner's structured error payload
(`{"error": ..., "details": str(e)}`, lines 271-274; the details slot
carries the stringified exception, modelled by the exception value), or
an uncaught Python exception. -/
inductive NodeResult where
  | update (msgs : List Message)
  | errPayload (error : String) (details : PyErr)
  | raised (e : PyErr)

/-- The Schema Planner stage `node_schema`: its body wrapped in the
`try/except Exception` of lines 187/268-274. -/
def node_schema (env : Env) (st : PipelineState) : NodeResult :=
  match node_schemaBody env st with
  | .ok msgs => .update msgs
  | .error e => .errPayload "node_schema_failed" e

/-- One iteration of the executor's metric loop (lines 292-304):
`m["sql"]` first (the `print` on line 293), then the tool invocation,
then the record fields in dict-literal order, with `data or []`
defaulting a `None` tool result to the empty list. -/
def execMetric (env : Env) (csv : String) (m : Json) : Except PyErr Json :=
  match pySubscript m "sql" with
  | .error e => .error e
  | .ok sqlv =>
    let data := env.execQuery csv sqlv
    match pySubscript m "metric" with
    | .error e => .error e
    | .ok metric =>
      match pySubscript m "description" with
      | .error e => .error e
      | .ok description =>
        match pySubscript m "visualization_type" with
        | .error e => .error e
        | .ok viz =>
          .ok (Json.obj
            [("metric", metric), ("description", description),
             ("visualization_type", viz),
             ("data", Json.arr (data.getD []))])

/-- The executor's loop over `key_metrics`, in plan order, strictly
sequentially; the first exception aborts the whole loop. -/
def execLoop (env : Env) (csv : String) : List Json → Except PyErr (List Json)
  | [] => .ok []
  | m :: rest =>
    match execMetric env csv m with
    | .error e => .error e
    | .ok r =>
      match execLoop env csv rest with
      | .error e => .error e
      | .ok rs => .ok (r :: rs)

/-- The Metric Executor stage `node_execute_sql` (lines 276-307), which
has no enclosing `try`: locate `execute_polars_sql` with a defaultless
`next` (StopIteration when absent), take the last message, parse its
content as JSON (any parse exception re-raised as the `ValueError` of
line 290), default a missing `key_metrics` to `[]`, run the metric loop
and store the record list (a Python list) as the new message content. -/
def node_execute_sql (env : Env) (st : PipelineState) : NodeResult :=
  match findTool st.tool "execute_polars_sql" with
  | none => .raised .stopIteration
  | some _ =>
    match pyLast st.messages with
    | .error e => .raised e
    | .ok msg =>
      match loadsContent msg.content with
      | .error e => .raised (.valueExecParse e)
      | .ok payload =>
        match pyGetD payload "key_metrics" (Json.arr []) with
        | .error e => .raised e
        | .ok km =>
          match pyIter km with
          | .error e => .raised e
          | .ok ms =>
            match execLoop env st.csv_file_path ms with
            | .error e => .raised e
            | .ok recs => .update [{ role := "ai", content := Content.pyList (Json.arr recs) }]

/-- The Dashboard Renderer stage `node_render_html` (lines 309-319), no
enclosing `try`: read the last message (IndexError when there is none),
serialize it into the render prompt, call the model and store its content
as-is — the code performs no check of any kind on the response. -/
def node_render_html (env : Env) (st : PipelineState) : NodeResult :=
  match pyLast st.messages with
  | .error e => .raised e
  | .ok _msg => .update [{ role := "ai", content := contentOfLLM env.llmRender }]

/-- Stage names of the graph built by `build_pipeline_graph`. -/
inductive Stage where
  | schema
  | execute_sql
  | render_html
  deriving DecidableEq

/-- Outcome of a coordinator run. -/
inductive RunResult where
  | done (final : PipelineState)
  | raisedAt (s : Stage) (e : PyErr)
  | invalidUpdate (s : Stage)

/-- Trace of one coordinator run: the stages entered, the state after
each applied update, and the outcome. -/
structure RunTrace where
  entered : List Stage
  states : List PipelineState
  result : RunResult

/-- Dispatch of the graph's node names to their handlers
(`graph.add_node` calls of lines 325-327). -/
def stepNode (env : Env) (s : Stage) (st : PipelineState) : NodeResult :=
  match s with
  | .schema => node_schema env st
  | .execute_sql => node_execute_sql env st
  | .render_html => node_render_html env st

/-- Applying a stage's `{"messages": [...]}` update to the state.
Modelled from the spec: the graph framework's state merge is not under
`src/`.  The `messages` field of `PipelineState` is annotated with the
string "add_messages" (line 181), not a callable reducer, so the channel
holds the last written value: an update replaces `messages` and touches
no other field. -/
def applyUpdate (st : PipelineState) (msgs : List Message) : PipelineState :=
  { st with messages := msgs }

/-- Sequential execution of a list of stages from a state.
Modelled from the spec: the coordinator's run loop is supplied by the
graph framework, not by code under `src/`; its edges are the fixed
unconditional chain of `build_pipeline_graph` (lines 328-331).  A stage
that raises aborts the run; a stage whose returned mapping contains no
key of the state schema (the planner's error payload) makes the
framework reject the update and abort the run without entering the next
stage — per spec §8, "the coordinator produces no execute/render
transition". -/
def runFrom (env : Env) : List Stage → PipelineState → RunTrace
  | [], st => { entered := [], states := [], result := .done st }
  | s :: rest, st =>
    match stepNode env s st with
    | .raised e => { entered := [s], states := [], result := .raisedAt s e }
    | .errPayload _ _ => { entered := [s], states := [], result := .invalidUpdate s }
    | .update msgs =>
      let st' := applyUpdate st msgs
      let t := runFrom env rest st'
      { entered := s :: t.entered, states := st' :: t.states, result := t.result }

/-- One full pipeline run: entry point `schema`, then the unconditional
edges `schema → execute_sql → render_html → END`. -/
def runPipeline (env : Env) (st : PipelineState) : RunTrace :=
  runFrom env [Stage.schema, Stage.execute_sql, Stage.render_html] st

/-- A well-formed metric plan, shaped as the planner output JSON of §6. -/
structure MetricPlan where
  metric : Json
  description : Json
  visualization_type : Json
  visualization_rationale : Json
  sql : Json

/-- The JSON object of a metric plan, fields in the §6 order. -/
def MetricPlan.toJson (p : MetricPlan) : Json :=
  Json.obj [("metric", p.metric), ("description", p.description),
            ("visualization_type", p.visualization_type),
            ("visualization_rationale", p.visualization_rationale),
            ("sql", p.sql)]

/-- The MetricRecord the executor produces for one plan: the plan's
descriptive fields unchanged plus the tool's rows for the plan's query,
the empty list when the tool returned nothing. -/
def expectedRecord (env : Env) (csv : String) (p : MetricPlan) : Json :=
  Json.obj [("metric", p.metric), ("description", p.description),
            ("visualization_type", p.visualization_type),
            ("data", Json.arr ((env.execQuery csv p.sql).getD []))]

/-- Whether a stage outcome is an uncaught `MalformedPlan` exception. -/
def resultIsMalformedPlan : NodeResult → Bool
  | .raised e => isMalformedPlan e
  | _ => false

/-- Whether an `Except` computation succeeded. -/
def exceptIsOk {α : Type} : Except PyErr α → Bool
  | .ok _ => true
  | .error _ => false

/-- Every state of a list agrees with the base state on the dataset
location and the tool bindings. -/
def statesPreserve (base : PipelineState) : List PipelineState → Prop
  | [] => True
  | s :: rest =>
    (s.csv_file_path = base.csv_file_path ∧ s.tool = base.tool) ∧ statesPreserve base rest

/-- Both tools of the dataset tool provider are bound. -/
def toolsFull : List Tool := [{ name := "get_schema" }, { name := "execute_polars_sql" }]

/-- A well-formed two-column schema as returned by the `get_schema`
tool, one item a plain value and one a JSON-encoded string. -/
def wrappedOk : List WItem :=
  [WItem.value (Json.obj [("name", Json.str "Age"), ("dtype", Json.str "int")]),
   WItem.strJson (Json.obj [("name", Json.str "Base Price (Cr)"), ("dtype", Json.str "float")])]

/-- A concrete metric plan. -/
def planA : MetricPlan :=
  { metric := Json.str "Avg base price by age"
    description := Json.str "Average base price per age group"
    visualization_type := Json.str "bar_chart"
    visualization_rationale := Json.str "Comparing age groups"
    sql := Json.str "SELECT Age, AVG(Price) FROM self GROUP BY Age" }

/-- A full analysis response: domain plus the two required keys. -/
def specA : Json :=
  Json.obj [("domain", Json.str "sports"),
            ("key_metrics", Json.arr [MetricPlan.toJson planA]),
            ("dashboard_components", Json.arr [Json.str "charts"])]

/-- One result row for the concrete plan's query. -/
def rowsA : List Json := [Json.obj [("Age", Json.num 25), ("avg", Json.num 3)]]

/-- An environment in which every external call succeeds. -/
def envHappy : Env :=
  { wrapped := wrappedOk
    llmAnalysis := LLMText.parsed specA
    execQuery := fun _ _ => some rowsA
    llmRender := LLMText.raw "<html><body>dash</body></html>" }

/-- The initial state of a run: the user question, a dataset location
and the two tool bindings. -/
def stHappy : PipelineState :=
  { messages := [{ role := "human", content := Content.raw "Analyze base price trends over age" }]
    csv_file_path := "uploaded.csv"
    tool := toolsFull }

/-- `envHappy`, except the analysis model returns the empty string. -/
def envEmptyLLM : Env := { envHappy with llmAnalysis := LLMText.raw "" }

/-- `envHappy`, except the schema has one entry carrying a name but no
dtype. -/
def envNameOnly : Env :=
  { envHappy with wrapped := [WItem.value (Json.obj [("name", Json.str "Age")])] }

/-- `envHappy`, except the `get_schema` tool returns an empty list. -/
def envEmptySchema : Env := { envHappy with wrapped := [] }

/-- `envHappy`, except the render model returns the empty string. -/
def envRenderEmpty : Env := { envHappy with llmRender := LLMText.raw "" }

/-- A state with no tool bound at all. -/
def stNoTools : PipelineState := { stHappy with tool := [] }

/-- A state whose last message content is the JSON object with a single
`domain` key: it parses as JSON but carries no `key_metrics` list. -/
def stObjNoKM : PipelineState :=
  { stHappy with
    messages := stHappy.messages ++
      [{ role := "ai", content := Content.jsonText (Json.obj [("domain", Json.str "x")]) }] }

/-- The message the planner hands off in `envHappy`. -/
def outMsgHappy : Message :=
  { role := "ai"
    content := Content.jsonText (Json.obj
      [("key_metrics", Json.arr [MetricPlan.toJson planA]),
       ("dashboard_components", Json.arr [Json.str "charts"])]) }

/-- A state carrying the planner's hand-off message for `envHappy`. -/
def stPlanMsg : PipelineState :=
  { stHappy with messages := stHappy.messages ++ [outMsgHappy] }

theorem pyLast_concat (pre : List Message) (m : Message) :
    pyLast (pre ++ [m]) = .ok m := by
  unfold pyLast
  rw [List.getLast?_concat]

theorem execMetric_toJson (env : Env) (csv : String) (p : MetricPlan) :
    execMetric env csv (MetricPlan.toJson p) = .ok (expectedRecord env csv p) := rfl

theorem execLoop_map (env : Env) (csv : String) (plans : List MetricPlan) :
    execLoop env csv (plans.map MetricPlan.toJson) =
      .ok (plans.map (expectedRecord env csv)) := by
  induction plans with
  | nil => rfl
  | cons p rest ih =>
    simp only [List.map_cons, execLoop, execMetric_toJson, ih]

/-- C1: for every state whose last message carries a `DashboardSpec`
whose `key_metrics` list holds N well-formed metric plans, the Metric
Executor returns one state update holding exactly the N metric records,
in plan order, each preserving the plan's `metric`, `description` and
`visualization_type` fields unchanged, with `data` being whatever the
dataset tool returned for that plan's query (the empty list when the
tool returned nothing). -/
theorem executor_materializes_plans (env : Env) (st : PipelineState) (t : Tool)
    (pre : List Message) (msg : Message) (fields : List (String × Json))
    (plans : List MetricPlan)
    (htool : findTool st.tool "execute_polars_sql" = some t)
    (hmsgs : st.messages = pre ++ [msg])
    (hcontent : msg.content = Content.jsonText (Json.obj fields))
    (hkm : objFind fields "key_metrics" = some (Json.arr (plans.map MetricPlan.toJson))) :
    node_execute_sql env st =
      NodeResult.update [{ role := "ai"
                           content := Content.pyList (Json.arr
                             (plans.map (expectedRecord env st.csv_file_path))) }] ∧
    (plans.map (expectedRecord env st.csv_file_path)).length = plans.length := by
  refine ⟨?_, by simp⟩
  unfold node_execute_sql
  rw [htool, hmsgs, pyLast_concat]
  simp only [hcontent, loadsContent, pyGetD, hkm, Option.getD_some, pyIter, execLoop_map]

/-- Witness for C1 at a concrete one-plan spec. -/
theorem executor_materializes_plans_witness :
    node_execute_sql envHappy stPlanMsg =
      NodeResult.update [{ role := "ai"
                           content := Content.pyList (Json.arr
                             [expectedRecord envHappy "uploaded.csv" planA]) }] ∧
    ([planA].map (expectedRecord envHappy "uploaded.csv")).length = [planA].length :=
  executor_materializes_plans envHappy stPlanMsg { name := "execute_polars_sql" }
    stHappy.messages outMsgHappy
    [("key_metrics", Json.arr [MetricPlan.toJson planA]),
     ("dashboard_components", Json.arr [Json.str "charts"])]
    [planA] rfl rfl rfl rfl

/-- C2: no failure inside the Schema Planner stage propagates as an
exception: `node_schema` never yields a raised outcome, and whenever its
body fails with an exception `e`, the stage returns the structured error
payload tagged "node_schema_failed" carrying that exception's text. -/
theorem planner_contains_all_failures (env : Env) (st : PipelineState) :
    (∀ e, node_schema env st ≠ NodeResult.raised e) ∧
    (∀ e, node_schemaBody env st = Except.error e →
      node_schema env st = NodeResult.errPayload "node_schema_failed" e) := by
  constructor
  · intro e h
    unfold node_schema at h
    cases hb : node_schemaBody env st <;> rw [hb] at h <;> exact NodeResult.noConfusion h
  · intro e hb
    unfold node_schema
    rw [hb]

/-- Witness for C2 at a failing planner input (empty schema). -/
theorem planner_contains_all_failures_witness :
    node_schema envEmptySchema stHappy =
      NodeResult.errPayload "node_schema_failed" PyErr.valueEmptySchema :=
  (planner_contains_all_failures envEmptySchema stHappy).2 PyErr.valueEmptySchema rfl

/-- C5 counterexample: with the render model returning the empty string,
`node_render_html` does not fail with any error at all — it returns a
normal state update whose message carries the empty content, refuting
the claim that an empty model response makes the renderer fail with
`ModelOutputInvalid`. -/
theorem renderer_accepts_empty_model_output :
    node_render_html envRenderEmpty stHappy =
      NodeResult.update [{ role := "ai", content := Content.raw "" }] := rfl

/-- C5 (amended): for every state with at least one message, the
Dashboard Renderer returns the model's markup string as-is, with no
emptiness check and no structural validation — the empty response
included. -/
theorem renderer_returns_content_verbatim (env : Env) (st : PipelineState)
    (pre : List Message) (msg : Message)
    (hmsgs : st.messages = pre ++ [msg]) :
    node_render_html env st =
      NodeResult.update [{ role := "ai", content := contentOfLLM env.llmRender }] := by
  unfold node_render_html
  rw [hmsgs, pyLast_concat]

/-- Witness for the amended C5 at the empty render response. -/
theorem renderer_returns_content_verbatim_witness :
    node_render_html envRenderEmpty stPlanMsg =
      NodeResult.update [{ role := "ai", content := Content.raw "" }] :=
  renderer_returns_content_verbatim envRenderEmpty stPlanMsg stHappy.messages outMsgHappy rfl

/-- C10: when no tool named "execute_polars_sql" is bound, the Metric
Executor raises an uncaught StopIteration and produces no output
message, whereas the Schema Planner converts the analogous absence of
"get_schema" into its structured error payload. -/
theorem tool_lookup_asymmetry (env : Env) (st : PipelineState) :
    (findTool st.tool "execute_polars_sql" = none →
      node_execute_sql env st = NodeResult.raised PyErr.stopIteration) ∧
    (findTool st.tool "get_schema" = none →
      node_schema env st =
        NodeResult.errPayload "node_schema_failed" PyErr.runtimeGetSchemaNotFound) := by
  constructor
  · intro h
    unfold node_execute_sql
    rw [h]
  · intro h
    unfold node_schema node_schemaBody
    rw [h]

/-- Witness for C10 at a state with no tools bound. -/
theorem tool_lookup_asymmetry_witness :
    node_execute_sql envHappy stNoTools = NodeResult.raised PyErr.stopIteration ∧
    node_schema envHappy stNoTools =
      NodeResult.errPayload "node_schema_failed" PyErr.runtimeGetSchemaNotFound :=
  ⟨(tool_lookup_asymmetry envHappy stNoTools).1 rfl,
   (tool_lookup_asymmetry envHappy stNoTools).2 rfl⟩

/-- C3: when the analysis model returns the empty string for a run that
reaches that call (the `get_schema` tool is bound, the returned schema
normalizes and passes its checks, and there is a user message), the
Schema Planner fails with the `ModelOutputInvalid` error of line 244
wrapped in its structured payload, and the coordinator performs no
transition into `execute_sql` or `render_html`: the only stage entered
is `schema` and the run aborts on the planner's unrecognized update. -/
theorem empty_model_response_stops_pipeline (env : Env) (st : PipelineState)
    (t : Tool) (l : List Json) (q : Message)
    (htool : findTool st.tool "get_schema" = some t)
    (hnorm : normalizeWrapped env.wrapped = .ok l)
    (hne : l.isEmpty = false)
    (hfirst : firstTwoOk l = true)
    (hlast : pyLast st.messages = .ok q)
    (hllm : env.llmAnalysis = LLMText.raw "") :
    node_schema env st = NodeResult.errPayload "node_schema_failed" PyErr.runtimeEmptyLLM ∧
    isModelOutputInvalid PyErr.runtimeEmptyLLM = true ∧
    (runPipeline env st).entered = [Stage.schema] ∧
    (runPipeline env st).result = RunResult.invalidUpdate Stage.schema := by
  have hs : node_schema env st =
      NodeResult.errPayload "node_schema_failed" PyErr.runtimeEmptyLLM := by
    unfold node_schema node_schemaBody
    rw [htool, hnorm, hlast, hllm]
    simp [hne, hfirst]
  have hr : runPipeline env st =
      { entered := [Stage.schema], states := [], result := RunResult.invalidUpdate Stage.schema } := by
    unfold runPipeline runFrom stepNode
    rw [hs]
  exact ⟨hs, rfl, by rw [hr], by rw [hr]⟩

/-- Witness for C3 at the concrete empty-response environment. -/
theorem empty_model_response_stops_pipeline_witness :
    node_schema envEmptyLLM stHappy =
      NodeResult.errPayload "node_schema_failed" PyErr.runtimeEmptyLLM ∧
    isModelOutputInvalid PyErr.runtimeEmptyLLM = true ∧
    (runPipeline envEmptyLLM stHappy).entered = [Stage.schema] ∧
    (runPipeline envEmptyLLM stHappy).result = RunResult.invalidUpdate Stage.schema :=
  empty_model_response_stops_pipeline envEmptyLLM stHappy { name := "get_schema" }
    [Json.obj [("name", Json.str "Age"), ("dtype", Json.str "int")],
     Json.obj [("name", Json.str "Base Price (Cr)"), ("dtype", Json.str "float")]]
    { role := "human", content := Content.raw "Analyze base price trends over age" }
    rfl rfl rfl rfl rfl rfl

theorem statesPreserve_trans (a b : PipelineState) (l : List PipelineState)
    (hcsv : b.csv_file_path = a.csv_file_path) (htool : b.tool = a.tool)
    (h : statesPreserve b l) : statesPreserve a l := by
  induction l with
  | nil => trivial
  | cons s rest ih =>
    obtain ⟨⟨h1, h2⟩, h3⟩ := h
    exact ⟨⟨h1.trans hcsv, h2.trans htool⟩, ih h3⟩

theorem runFrom_preserves (env : Env) (stages : List Stage) (st : PipelineState) :
    statesPreserve st (runFrom env stages st).states := by
  induction stages generalizing st with
  | nil => trivial
  | cons s rest ih =>
    unfold runFrom
    cases stepNode env s st with
    | raised e => trivial
    | errPayload a b => trivial
    | update msgs =>
      exact ⟨⟨rfl, rfl⟩,
        statesPreserve_trans st (applyUpdate st msgs) _ rfl rfl (ih (applyUpdate st msgs))⟩

/-- C9: for every environment and initial state, every pipeline state
reached during the run agrees with the initial state on
`csv_file_path` and `tool`: no stage's update modifies either field. -/
theorem pipeline_frames_location_and_tools (env : Env) (st : PipelineState) :
    statesPreserve st (runPipeline env st).states :=
  runFrom_preserves env [Stage.schema, Stage.execute_sql, Stage.render_html] st

/-- C4 counterexample: the last message content is the JSON object with
only a `domain` key — it parses as JSON but contains no `key_metrics`
list.  The claim asserts a `MalformedPlan` failure; the executor instead
proceeds and returns a normal update carrying an empty record list. -/
theorem executor_defaults_missing_key_metrics :
    node_execute_sql envHappy stObjNoKM =
      NodeResult.update [{ role := "ai", content := Content.pyList (Json.arr []) }] ∧
    resultIsMalformedPlan (node_execute_sql envHappy stObjNoKM) = false :=
  ⟨rfl, rfl⟩

theorem pySubscript_error_not_malformed (j : Json) (k : String) (e : PyErr)
    (h : pySubscript j k = .error e) : isMalformedPlan e = false := by
  cases j with
  | obj fields =>
    simp only [pySubscript] at h
    cases hf : objFind fields k <;> rw [hf] at h <;> simp at h
    subst h
    rfl
  | null => simp [pySubscript] at h; subst h; rfl
  | bool b => simp [pySubscript] at h; subst h; rfl
  | num n => simp [pySubscript] at h; subst h; rfl
  | str s => simp [pySubscript] at h; subst h; rfl
  | arr xs => simp [pySubscript] at h; subst h; rfl

theorem execMetric_error_not_malformed (env : Env) (csv : String) (m : Json) (e : PyErr)
    (h : execMetric env csv m = .error e) : isMalformedPlan e = false := by
  unfold execMetric at h
  cases h1 : pySubscript m "sql" with
  | error e1 =>
    rw [h1] at h
    simp at h
    subst h
    exact pySubscript_error_not_malformed m "sql" e1 h1
  | ok v1 =>
    rw [h1] at h
    cases h2 : pySubscript m "metric" with
    | error e2 =>
      rw [h2] at h
      simp at h
      subst h
      exact pySubscript_error_not_malformed m "metric" e2 h2
    | ok v2 =>
      rw [h2] at h
      cases h3 : pySubscript m "description" with
      | error e3 =>
        rw [h3] at h
        simp at h
        subst h
        exact pySubscript_error_not_malformed m "description" e3 h3
      | ok v3 =>
        rw [h3] at h
        cases h4 : pySubscript m "visualization_type" with
        | error e4 =>
          rw [h4] at h
          simp at h
          subst h
          exact pySubscript_error_not_malformed m "visualization_type" e4 h4
        | ok v4 =>
          rw [h4] at h
          simp at h

theorem execLoop_error_not_malformed (env : Env) (csv : String) (ms : List Json) (e : PyErr)
    (h : execLoop env csv ms = .error e) : isMalformedPlan e = false := by
  induction ms with
  | nil => simp [execLoop] at h
  | cons m rest ih =>
    unfold execLoop at h
    cases h1 : execMetric env csv m with
    | error e1 =>
      rw [h1] at h
      simp at h
      subst h
      exact execMetric_error_not_malformed env csv m e1 h1
    | ok r =>
      rw [h1] at h
      cases h2 : execLoop env csv rest with
      | error e2 =>
        rw [h2] at h
        simp at h
        subst h
        exact ih h2
      | ok rs =>
        rw [h2] at h
        simp at h

theorem pyGetD_error_not_malformed (j : Json) (k : String) (d : Json) (e : PyErr)
    (h : pyGetD j k d = .error e) : isMalformedPlan e = false := by
  cases j <;> simp [pyGetD] at h <;> subst h <;> rfl

theorem pyIter_error_not_malformed (j : Json) (e : PyErr)
    (h : pyIter j = .error e) : isMalformedPlan e = false := by
  cases j <;> simp [pyIter] at h <;> subst h <;> rfl

/-- C4 (amended): with the execute tool bound and at least one message,
the Metric Executor fails with `MalformedPlan` exactly when the last
message's content does not parse as JSON at all; in particular a parsed
object lacking the `key_metrics` key is not a `MalformedPlan` failure —
the plan defaults to the empty list and execution proceeds. -/
theorem executor_malformed_plan_iff (env : Env) (st : PipelineState) (t : Tool)
    (pre : List Message) (msg : Message)
    (htool : findTool st.tool "execute_polars_sql" = some t)
    (hmsgs : st.messages = pre ++ [msg]) :
    resultIsMalformedPlan (node_execute_sql env st) =
      !(exceptIsOk (loadsContent msg.content)) := by
  unfold node_execute_sql
  rw [htool, hmsgs, pyLast_concat]
  dsimp only
  cases hl : loadsContent msg.content with
  | error e => simp [resultIsMalformedPlan, isMalformedPlan, exceptIsOk]
  | ok payload =>
    dsimp only
    cases h1 : pyGetD payload "key_metrics" (Json.arr []) with
    | error e1 =>
      exact pyGetD_error_not_malformed payload "key_metrics" (Json.arr []) e1 h1
    | ok km =>
      dsimp only
      cases h2 : pyIter km with
      | error e2 => exact pyIter_error_not_malformed km e2 h2
      | ok ms =>
        dsimp only
        cases h3 : execLoop env st.csv_file_path ms with
        | error e3 => exact execLoop_error_not_malformed env st.csv_file_path ms e3 h3
        | ok recs => rfl

/-- Witness for the amended C4: the initial state's last message is the
raw user question, which does not parse as JSON, so the executor's
outcome is a `MalformedPlan` failure. -/
theorem executor_malformed_plan_iff_witness :
    resultIsMalformedPlan (node_execute_sql envHappy stHappy) =
      !(exceptIsOk (loadsContent
        (Content.raw "Analyze base price trends over age"))) :=
  executor_malformed_plan_iff envHappy stHappy { name := "execute_polars_sql" } []
    { role := "human", content := Content.raw "Analyze base price trends over age" }
    rfl rfl

theorem pyLast_error_eq (ms : List Message) (e : PyErr)
    (h : pyLast ms = .error e) : e = PyErr.indexError := by
  unfold pyLast at h
  cases hg : ms.getLast? <;> rw [hg] at h <;> simp at h
  exact h.symm

theorem pyContains_error_eq (j : Json) (k : String) (e : PyErr)
    (h : pyContains j k = .error e) : e = PyErr.typeError := by
  cases j <;> simp [pyContains] at h <;> exact h.symm

theorem pyGetD_error_eq (j : Json) (k : String) (d : Json) (e : PyErr)
    (h : pyGetD j k d = .error e) : e = PyErr.attributeError := by
  cases j <;> simp [pyGetD] at h <;> exact h.symm

theorem pyGet_error_eq (j : Json) (k : String) (e : PyErr)
    (h : pyGet j k = .error e) : e = PyErr.attributeError := by
  cases j <;> simp [pyGet] at h <;> exact h.symm

theorem node_schemaBody_after_checks (env : Env) (st : PipelineState) (t : Tool)
    (l : List Json)
    (htool : findTool st.tool "get_schema" = some t)
    (hnorm : normalizeWrapped env.wrapped = .ok l)
    (hne : l.isEmpty = false)
    (hfirst : firstTwoOk l = true)
    (e : PyErr) (hb : node_schemaBody env st = .error e) :
    isSchemaInvalid e = false := by
  unfold node_schemaBody at hb
  rw [htool, hnorm] at hb
  dsimp only at hb
  rw [hne, hfirst] at hb
  simp only [Bool.not_true, Bool.false_eq_true, if_false] at hb
  cases hq : pyLast st.messages with
  | error e1 =>
    rw [hq] at hb
    simp at hb
    subst hb
    rw [pyLast_error_eq st.messages e1 hq]
    rfl
  | ok q =>
    rw [hq] at hb
    dsimp only at hb
    cases ha : env.llmAnalysis with
    | raw s =>
      rw [ha] at hb
      dsimp only at hb
      cases hs : (s == "") <;> rw [hs] at hb <;> simp at hb <;> subst hb <;> rfl
    | parsed spec =>
      rw [ha] at hb
      dsimp only at hb
      cases hc1 : pyContains spec "key_metrics" with
      | error e1 =>
        rw [hc1] at hb
        simp at hb
        subst hb
        rw [pyContains_error_eq spec "key_metrics" e1 hc1]
        rfl
      | ok b1 =>
        rw [hc1] at hb
        cases b1 with
        | false =>
          simp at hb
          subst hb
          rfl
        | true =>
          dsimp only at hb
          cases hc2 : pyContains spec "dashboard_components" with
          | error e2 =>
            rw [hc2] at hb
            simp at hb
            subst hb
            rw [pyContains_error_eq spec "dashboard_components" e2 hc2]
            rfl
          | ok b2 =>
            rw [hc2] at hb
            cases b2 with
            | false =>
              simp at hb
              subst hb
              rfl
            | true =>
              dsimp only at hb
              cases hg1 : pyGetD spec "key_metrics" (Json.arr []) with
              | error e3 =>
                rw [hg1] at hb
                simp at hb
                subst hb
                rw [pyGetD_error_eq spec "key_metrics" (Json.arr []) e3 hg1]
                rfl
              | ok km =>
                rw [hg1] at hb
                dsimp only at hb
                cases hg2 : pyGet spec "dashboard_components" with
                | error e4 =>
                  rw [hg2] at hb
                  simp at hb
                  subst hb
                  rw [pyGet_error_eq spec "dashboard_components" e4 hg2]
                  rfl
                | ok dc =>
                  rw [hg2] at hb
                  simp at hb

/-- C6 counterexample: a schema whose only entry carries a name but no
dtype.  The entry does not lack BOTH a name and a type, so the claim
predicts the check passes, yet the planner fails with the
`SchemaInvalid` error of line 224. -/
theorem schema_check_rejects_name_without_dtype :
    node_schema envNameOnly stHappy =
      NodeResult.errPayload "node_schema_failed" PyErr.valueSchemaMissingKeys ∧
    schemaItemOk (Json.obj [("name", Json.str "Age")]) = false ∧
    isSchemaInvalid PyErr.valueSchemaMissingKeys = true :=
  ⟨rfl, rfl, rfl⟩

/-- C6 (amended): the Schema Planner fails with `SchemaInvalid` when the
normalized column list is empty, or when any of its first two entries is
not a mapping carrying both a name and a dtype (lacking either one
fails); otherwise the schema check passes: any later planner failure is
not a `SchemaInvalid` error. -/
theorem planner_schema_check (env : Env) (st : PipelineState) (t : Tool) (l : List Json)
    (htool : findTool st.tool "get_schema" = some t)
    (hnorm : normalizeWrapped env.wrapped = .ok l) :
    (l.isEmpty = true →
      node_schema env st = NodeResult.errPayload "node_schema_failed" PyErr.valueEmptySchema) ∧
    (l.isEmpty = false → firstTwoOk l = false →
      node_schema env st =
        NodeResult.errPayload "node_schema_failed" PyErr.valueSchemaMissingKeys) ∧
    (l.isEmpty = false → firstTwoOk l = true →
      ∀ d, node_schema env st = NodeResult.errPayload "node_schema_failed" d →
        isSchemaInvalid d = false) := by
  refine ⟨?_, ?_, ?_⟩
  · intro h
    unfold node_schema node_schemaBody
    rw [htool, hnorm]
    simp [h]
  · intro h1 h2
    unfold node_schema node_schemaBody
    rw [htool, hnorm]
    simp [h1, h2]
  · intro h1 h2 d hd
    unfold node_schema at hd
    cases hb : node_schemaBody env st with
    | ok msgs =>
      rw [hb] at hd
      exact absurd hd (by simp)
    | error e =>
      rw [hb] at hd
      injection hd with hd1 hd2
      subst hd2
      exact node_schemaBody_after_checks env st t l htool hnorm h1 h2 e hb

/-- Witness for the amended C6 at the name-without-dtype schema. -/
theorem planner_schema_check_witness :
    node_schema envNameOnly stHappy =
      NodeResult.errPayload "node_schema_failed" PyErr.valueSchemaMissingKeys :=
  (planner_schema_check envNameOnly stHappy { name := "get_schema" }
    [Json.obj [("name", Json.str "Age")]] rfl rfl).2.1 rfl rfl

theorem objFind_cons (p : String × Json) (fs : List (String × Json)) (k : String) :
    objFind (p :: fs) k = if (p.1 == k) then some p.2 else objFind fs k := by
  unfold objFind
  cases hp : (p.1 == k) <;> simp [List.find?_cons, hp]

theorem objFind_none_any (fs : List (String × Json)) (k : String)
    (h : objFind fs k = none) : fs.any (fun p => p.1 == k) = false := by
  induction fs with
  | nil => rfl
  | cons p rest ih =>
    rw [objFind_cons] at h
    cases hp : (p.1 == k) with
    | false =>
      rw [hp] at h
      simp at h
      simp [hp, ih h]
    | true =>
      rw [hp] at h
      simp at h

theorem objFind_some_any (fs : List (String × Json)) (k : String) (v : Json)
    (h : objFind fs k = some v) : fs.any (fun p => p.1 == k) = true := by
  induction fs with
  | nil => simp [objFind] at h
  | cons p rest ih =>
    rw [objFind_cons] at h
    cases hp : (p.1 == k) with
    | false =>
      rw [hp] at h
      simp at h
      simp [hp, ih h]
    | true => simp [hp]

theorem objFind_of_any (fs : List (String × Json)) (k : String)
    (h : fs.any (fun p => p.1 == k) = true) : ∃ v, objFind fs k = some v := by
  induction fs with
  | nil => simp at h
  | cons p rest ih =>
    rw [objFind_cons]
    cases hp : (p.1 == k) with
    | true => exact ⟨p.2, by simp⟩
    | false =>
      simp only [List.any_cons, hp, Bool.false_or] at h
      simp only [Bool.false_eq_true, if_false]
      exact ih h

/-- C7: for every model response received by a run reaching the analysis
call: the empty response and the non-empty unparseable response each fail
with a `ModelOutputInvalid` error; a parsed object missing `key_metrics`
or `dashboard_components` fails with the `ModelOutputIncomplete` error
naming the first missing key; a parsed object holding both keys makes
planning succeed with the hand-off spec. -/
theorem planner_model_response_cases (env : Env) (st : PipelineState)
    (t : Tool) (l : List Json) (q : Message)
    (htool : findTool st.tool "get_schema" = some t)
    (hnorm : normalizeWrapped env.wrapped = .ok l)
    (hne : l.isEmpty = false)
    (hfirst : firstTwoOk l = true)
    (hlast : pyLast st.messages = .ok q) :
    (env.llmAnalysis = LLMText.raw "" →
      node_schema env st = NodeResult.errPayload "node_schema_failed" PyErr.runtimeEmptyLLM ∧
      isModelOutputInvalid PyErr.runtimeEmptyLLM = true) ∧
    (∀ s, env.llmAnalysis = LLMText.raw s → (s == "") = false →
      node_schema env st = NodeResult.errPayload "node_schema_failed" PyErr.valueAnalysisJson ∧
      isModelOutputInvalid PyErr.valueAnalysisJson = true) ∧
    (∀ fs, env.llmAnalysis = LLMText.parsed (Json.obj fs) →
      objFind fs "key_metrics" = none →
      node_schema env st =
        NodeResult.errPayload "node_schema_failed" (PyErr.valueMissingKey "key_metrics") ∧
      isModelOutputIncomplete (PyErr.valueMissingKey "key_metrics") = true) ∧
    (∀ fs v, env.llmAnalysis = LLMText.parsed (Json.obj fs) →
      objFind fs "key_metrics" = some v →
      objFind fs "dashboard_components" = none →
      node_schema env st =
        NodeResult.errPayload "node_schema_failed"
          (PyErr.valueMissingKey "dashboard_components") ∧
      isModelOutputIncomplete (PyErr.valueMissingKey "dashboard_components") = true) ∧
    (∀ fs v w, env.llmAnalysis = LLMText.parsed (Json.obj fs) →
      objFind fs "key_metrics" = some v →
      objFind fs "dashboard_components" = some w →
      node_schema env st = NodeResult.update
        [{ role := "ai"
           content := Content.jsonText (Json.obj
             [("key_metrics", v), ("dashboard_components", w)]) }]) := by
  refine ⟨?_, ?_, ?_, ?_, ?_⟩
  · intro hllm
    refine ⟨?_, rfl⟩
    unfold node_schema node_schemaBody
    rw [htool, hnorm, hlast, hllm]
    simp [hne, hfirst]
  · intro s hllm hs
    refine ⟨?_, rfl⟩
    unfold node_schema node_schemaBody
    rw [htool, hnorm, hlast, hllm]
    simp [hne, hfirst, hs]
  · intro fs hllm hk
    refine ⟨?_, rfl⟩
    have ha := objFind_none_any fs "key_metrics" hk
    unfold node_schema node_schemaBody
    rw [htool, hnorm, hlast, hllm]
    simp [hne, hfirst, pyContains, ha]
  · intro fs v hllm hk hd
    refine ⟨?_, rfl⟩
    have ha1 := objFind_some_any fs "key_metrics" v hk
    have ha2 := objFind_none_any fs "dashboard_components" hd
    unfold node_schema node_schemaBody
    rw [htool, hnorm, hlast, hllm]
    simp [hne, hfirst, pyContains, ha1, ha2]
  · intro fs v w hllm hk hd
    have ha1 := objFind_some_any fs "key_metrics" v hk
    have ha2 := objFind_some_any fs "dashboard_components" w hd
    unfold node_schema node_schemaBody
    rw [htool, hnorm, hlast, hllm]
    simp [hne, hfirst, pyContains, ha1, ha2, pyGetD, pyGet, hk, hd]

/-- Witness for C7 at the success case of the concrete environment. -/
theorem planner_model_response_cases_witness :
    node_schema envHappy stHappy = NodeResult.update
      [{ role := "ai"
         content := Content.jsonText (Json.obj
           [("key_metrics", Json.arr [MetricPlan.toJson planA]),
            ("dashboard_components", Json.arr [Json.str "charts"])]) }] :=
  ((planner_model_response_cases envHappy stHappy { name := "get_schema" }
      [Json.obj [("name", Json.str "Age"), ("dtype", Json.str "int")],
       Json.obj [("name", Json.str "Base Price (Cr)"), ("dtype", Json.str "float")]]
      { role := "human", content := Content.raw "Analyze base price trends over age" }
      rfl rfl rfl rfl rfl).2.2.2.2)
    [("domain", Json.str "sports"),
     ("key_metrics", Json.arr [MetricPlan.toJson planA]),
     ("dashboard_components", Json.arr [Json.str "charts"])]
    (Json.arr [MetricPlan.toJson planA]) (Json.arr [Json.str "charts"])
    rfl rfl rfl

/-- C8: whenever planning succeeds, the hand-off message carries exactly
the two fields `key_metrics` and `dashboard_components`, with the values
of those keys in the model's parsed JSON object; `domain`, the per-metric
rationale container and every other top-level field of the response is
absent from the hand-off. -/
theorem planner_handoff_minimal_spec (env : Env) (st : PipelineState) (msgs : List Message)
    (h : node_schema env st = NodeResult.update msgs) :
    ∃ fs v w, env.llmAnalysis = LLMText.parsed (Json.obj fs) ∧
      objFind fs "key_metrics" = some v ∧
      objFind fs "dashboard_components" = some w ∧
      msgs = [{ role := "ai"
                content := Content.jsonText (Json.obj
                  [("key_metrics", v), ("dashboard_components", w)]) }] := by
  unfold node_schema at h
  cases hb : node_schemaBody env st with
  | error e =>
    rw [hb] at h
    exact absurd h (by simp)
  | ok ms =>
    rw [hb] at h
    injection h with hm
    subst hm
    unfold node_schemaBody at hb
    cases ht : findTool st.tool "get_schema" with
    | none =>
      rw [ht] at hb
      simp at hb
    | some t =>
      rw [ht] at hb
      dsimp only at hb
      cases hn : normalizeWrapped env.wrapped with
      | error e =>
        rw [hn] at hb
        simp at hb
      | ok l =>
        rw [hn] at hb
        dsimp only at hb
        cases hie : l.isEmpty with
        | true =>
          rw [hie] at hb
          simp at hb
        | false =>
          rw [hie] at hb
          simp only [Bool.false_eq_true, if_false] at hb
          cases hft : firstTwoOk l with
          | false =>
            rw [hft] at hb
            simp at hb
          | true =>
            rw [hft] at hb
            simp only [Bool.not_true, Bool.false_eq_true, if_false] at hb
            cases hq : pyLast st.messages with
            | error e =>
              rw [hq] at hb
              simp at hb
            | ok q =>
              rw [hq] at hb
              dsimp only at hb
              cases ha : env.llmAnalysis with
              | raw s =>
                rw [ha] at hb
                dsimp only at hb
                cases hs : (s == "") <;> rw [hs] at hb <;> simp at hb
              | parsed spec =>
                rw [ha] at hb
                dsimp only at hb
                cases hc1 : pyContains spec "key_metrics" with
                | error e =>
                  rw [hc1] at hb
                  simp at hb
                | ok b1 =>
                  rw [hc1] at hb
                  cases b1 with
                  | false => simp at hb
                  | true =>
                    dsimp only at hb
                    cases hc2 : pyContains spec "dashboard_components" with
                    | error e =>
                      rw [hc2] at hb
                      simp at hb
                    | ok b2 =>
                      rw [hc2] at hb
                      cases b2 with
                      | false => simp at hb
                      | true =>
                        dsimp only at hb
                        cases spec with
                        | null => simp [pyGetD] at hb
                        | bool b => simp [pyGetD] at hb
                        | num n => simp [pyGetD] at hb
                        | str s => simp [pyGetD] at hb
                        | arr xs => simp [pyGetD] at hb
                        | obj fs =>
                          simp only [pyContains] at hc1 hc2
                          injection hc1 with hc1'
                          injection hc2 with hc2'
                          obtain ⟨v, hv⟩ := objFind_of_any fs "key_metrics" hc1'
                          obtain ⟨w, hw⟩ := objFind_of_any fs "dashboard_components" hc2'
                          simp only [pyGetD, pyGet] at hb
                          rw [hv, hw] at hb
                          simp at hb
                          exact ⟨fs, v, w, rfl, hv, hw, hb.symm⟩

/-- Witness for C8 at the concrete successful planning run. -/
theorem planner_handoff_minimal_spec_witness :
    ∃ fs v w, envHappy.llmAnalysis = LLMText.parsed (Json.obj fs) ∧
      objFind fs "key_metrics" = some v ∧
      objFind fs "dashboard_components" = some w ∧
      [outMsgHappy] = [{ role := "ai"
                         content := Content.jsonText (Json.obj
                           [("key_metrics", v), ("dashboard_components", w)]) }] :=
  planner_handoff_minimal_spec envHappy stHappy [outMsgHappy] rfl

end McpCsv
